import Mathlib

/-
Verification of the VoiceBuddy speech-practice application
(src/voicebuddy_app.py) against its specification.

The application state relevant to the session pipeline is embedded as an
explicit record; the GUI/thread methods become functions from state to a
new state paired with a list of observable effects (dialog warnings,
thread dispatches, widget updates, file writes).  Randomness
(random.choice) is passed in as a natural-number index, external results
(the whisper model load, the upstream phrase API outcome) as explicit
arguments.
-/

namespace VoiceBuddy

/-- Practice settings (voicebuddy_settings.json).  The Python code keeps
them in a dict; the five keys the program reads become fields and any
other key written through update_setting is kept in an association
list. -/
structure Settings where
  focus_area : String
  difficulty_level : String
  topic_interest : String
  phrase_length : String
  whisper_model_size : String
  extra : List (String × String)
deriving DecidableEq

/-- Per-user profile data (voicebuddy_data.json).  Session records are
abstracted to opaque strings; the claims only touch scores, the session
counter and the best score. -/
structure UserData where
  sessions : List String
  scores : List Nat
  total_sessions : Nat
  best_score : Nat
deriving DecidableEq

/-- A generated phrase together with its rationale, as produced by
call_ai_api_for_phrase and consumed by update_phrase_ui. -/
structure PhraseData where
  phrase : String
  explanation : String
deriving DecidableEq

/-- A callback posted back to the Tk main loop with root.after. -/
inductive UIPost where
  | updatePhrase (pd : PhraseData)
  | processRecording
  | resetRecordButton
  | showErrorDialog (msg : String)
deriving DecidableEq

/-- Kinds of daemon threads the application spawns with threading.Thread. -/
inductive ThreadKind where
  | record
  | generate
  | speak
deriving DecidableEq

/-- Observable effects of one command handler. -/
inductive Effect where
  | showWarning (title msg : String)
  | spawnThread (k : ThreadKind)
  | configRecordBtn (text : String)
  | configGenerateBtn (text : String)
  | configModelStatus (text : String)
  | loadModelInline (size : String)
  | writeDataFile (d : UserData)
  | writeSettingsFile (s : Settings)
  | tkAfter (p : UIPost)
deriving DecidableEq

/-- Whether an effect dispatches work onto a background thread. -/
def Effect.isSpawn : Effect → Bool
  | .spawnThread _ => true
  | _ => false

/-- The mutable application state touched by the session pipeline:
SPEECH_AVAILABLE, self.whisper_model, self.current_phrase,
self.current_context, self.is_recording, self.audio_frames,
self.settings and self.user_data.  Audio chunks are abstracted to
naturals; the loaded whisper model to the name it was loaded from. -/
structure AppState where
  speech_available : Bool
  whisper_model : Option String
  current_phrase : String
  current_context : String
  is_recording : Bool
  audio_frames : List Nat
  settings : Settings
  user_data : UserData
deriving DecidableEq

/-- Default profile used when voicebuddy_data.json is absent
(load_data, lines 101-107). -/
def default_user_data : UserData :=
  { sessions := [], scores := [], total_sessions := 0, best_score := 0 }

/-- Default settings used when voicebuddy_settings.json is absent
(load_data, lines 112-119). -/
def default_settings : Settings :=
  { focus_area := "general"
    difficulty_level := "beginner"
    topic_interest := ""
    phrase_length := "medium"
    whisper_model_size := "base"
    extra := [] }

/-- load_data (lines 96-119).  A file read either succeeds with parsed
contents (some) or raises FileNotFoundError (none), in which case the
corresponding default object is installed. -/
def load_data (dataFile : Option UserData) (settingsFile : Option Settings) :
    UserData × Settings :=
  (dataFile.getD default_user_data, settingsFile.getD default_settings)

/-- save_data (lines 121-130): writes the in-memory user data to the
data file and the in-memory settings to the settings file. -/
def save_data (st : AppState) : List Effect :=
  [Effect.writeDataFile st.user_data, Effect.writeSettingsFile st.settings]

/-- The dict write self.settings[key] = value (line 294). -/
def setSetting (s : Settings) (key value : String) : Settings :=
  if key = "focus_area" then { s with focus_area := value }
  else if key = "difficulty_level" then { s with difficulty_level := value }
  else if key = "topic_interest" then { s with topic_interest := value }
  else if key = "phrase_length" then { s with phrase_length := value }
  else if key = "whisper_model_size" then { s with whisper_model_size := value }
  else { s with extra := (key, value) :: s.extra.filter (fun kv => kv.1 ≠ key) }

/-- load_whisper_model (lines 85-93).  whisper.load_model is the
external argument loader; it yields some model on success and none when
the load raises (the except branch sets self.whisper_model = None).
The call happens inline on the calling thread, recorded by the
loadModelInline effect. -/
def load_whisper_model (loader : String → Option String) (st : AppState) :
    AppState × List Effect :=
  let size := st.settings.whisper_model_size
  ({ st with whisper_model := loader size }, [Effect.loadModelInline size])

/-- update_setting (lines 292-302): stores the new value; when the
whisper model size changed and speech is available, drops the model
handle and reloads it inline via load_whisper_model; finally calls
save_data. -/
def update_setting (loader : String → Option String) (st : AppState)
    (key value : String) : AppState × List Effect :=
  let st1 := { st with settings := setSetting st.settings key value }
  if key = "whisper_model_size" ∧ st.speech_available = true then
    let st2 := { st1 with whisper_model := none }
    let st3 := (load_whisper_model loader st2).1
    (st3, Effect.configModelStatus "Loading new model..." ::
            (load_whisper_model loader st2).2 ++ save_data st3)
  else
    (st1, save_data st1)

/-- start_recording (lines 715-756): sets is_recording, clears
audio_frames, repaints the record button and spawns the capture
thread. -/
def start_recording (st : AppState) : AppState × List Effect :=
  ({ st with is_recording := true, audio_frames := [] },
   [Effect.configRecordBtn "Stop Recording", Effect.spawnThread ThreadKind.record])

/-- stop_recording (lines 758-760): only flips is_recording off; the
capture thread notices and finishes on its own. -/
def stop_recording (st : AppState) : AppState × List Effect :=
  ({ st with is_recording := false }, [])

/-- toggle_recording (lines 696-713): guard chain of warnings, then
either start or stop depending on is_recording. -/
def toggle_recording (st : AppState) : AppState × List Effect :=
  if st.speech_available = false then
    (st, [Effect.showWarning "Feature Unavailable"
      "Speech recognition not available. Please install openai-whisper and pyaudio."])
  else if st.whisper_model = none then
    (st, [Effect.showWarning "Model Loading"
      "Whisper model is still loading. Please wait a moment."])
  else if st.current_phrase = "" then
    (st, [Effect.showWarning "No Phrase" "Please generate a phrase first!"])
  else if st.is_recording = false then
    start_recording st
  else
    stop_recording st

/-- generate_ai_phrase (lines 526-533): disables the button and spawns
the phrase-generation thread. -/
def generate_ai_phrase (st : AppState) : AppState × List Effect :=
  (st, [Effect.configGenerateBtn "Generating...", Effect.spawnThread ThreadKind.generate])

/-- update_phrase_ui (lines 655-673): installs the delivered phrase and
rationale into the live state and re-enables the button.  It takes no
session identifier and performs no staleness check. -/
def update_phrase_ui (st : AppState) (pd : PhraseData) : AppState × List Effect :=
  ({ st with current_phrase := pd.phrase, current_context := pd.explanation },
   [Effect.configGenerateBtn "Generate AI Phrase"])

/-- random.choice over a list, with the random draw passed in as an
index reduced modulo the length.  Python raises on an empty list; the
code only ever chooses from lists proved non-empty, so the default
never matters. -/
def pickStr (l : List String) (i : Nat) : String :=
  l.getD (i % l.length) ""

/-- random.choice over the fallback pair list of _generate_phrase_thread. -/
def pickPair (l : List (String × String)) (i : Nat) : String × String :=
  l.getD (i % l.length) ("", "")

/-- Python len(p.split()): whitespace split dropping empty pieces. -/
def wordCount (p : String) : Nat :=
  ((p.splitOn " ").filter (fun w => w ≠ "")).length

/-- Python substring test (needle in hay). -/
def strContains (hay needle : String) : Bool :=
  (List.range (hay.data.length + 1)).any
    (fun i => needle.data.isPrefixOf (hay.data.drop i))

/-- sample_phrases entry for focus general (lines 569-573). -/
def general_phrases : List String :=
  ["The bright morning sun shines through the window.",
   "Children laughed as they played in the garden.",
   "Technology helps us connect with people worldwide."]

/-- sample_phrases entry for focus pronunciation (lines 574-578). -/
def pronunciation_phrases : List String :=
  ["Thirty-three thousand feathers fell from fifty birds.",
   "The sixth sick sheik\x27s sixth sheep\x27s sick.",
   "How much wood would a woodchuck chuck if a woodchuck could chuck wood?"]

/-- sample_phrases entry for focus articulation (lines 579-583). -/
def articulation_phrases : List String :=
  ["Red leather, yellow leather, red leather, yellow leather.",
   "Unique New York, unique New York, you know you need unique New York.",
   "The lips, the teeth, the tip of the tongue."]

/-- sample_phrases entry for focus fluency (lines 584-588). -/
def fluency_phrases : List String :=
  ["The rain in Spain stays mainly in the plain, creating beautiful patterns across the landscape.",
   "A successful speech requires proper breathing, clear articulation, and confident delivery.",
   "Modern communication technology bridges distances but cannot replace personal connections."]

/-- sample_phrases entry for focus consonants (lines 589-593). -/
def consonants_phrases : List String :=
  ["Betty bought some butter but the butter was bitter, so Betty bought some better butter.",
   "Six thick thistle sticks stood still in the thick mist.",
   "The quick brown fox jumps over the lazy dog\x27s back."]

/-- sample_phrases entry for focus vowels (lines 594-598). -/
def vowels_phrases : List String :=
  ["How now brown cow, eating grass beneath the bough.",
   "The owl hooted through the cool blue moon above the zoo.",
   "Each peach piece teaches speech through reach and beat."]

/-- sample_phrases entry for focus tongue_twisters (lines 599-603). -/
def tongue_twister_phrases : List String :=
  ["Sally sells seashells by the seashore, surely she shall see some shells soon.",
   "Rubber baby buggy bumpers bounce brightly by the bay.",
   "Fuzzy wuzzy was a bear, fuzzy wuzzy had no hair, fuzzy wuzzy wasn\x27t fuzzy, was he?"]

/-- sample_phrases.get(focus, sample_phrases[general]) (lines 568-607). -/
def sample_phrases (focus : String) : List String :=
  if focus = "general" then general_phrases
  else if focus = "pronunciation" then pronunciation_phrases
  else if focus = "articulation" then articulation_phrases
  else if focus = "fluency" then fluency_phrases
  else if focus = "consonants" then consonants_phrases
  else if focus = "vowels" then vowels_phrases
  else if focus = "tongue_twisters" then tongue_twister_phrases
  else general_phrases

/-- focus_areas.get(focus, general practice) (lines 558-566, 646). -/
def focusDescription (focus : String) : String :=
  if focus = "general" then "balanced practice with common words"
  else if focus = "pronunciation" then "challenging consonant and vowel combinations"
  else if focus = "articulation" then "clear enunciation of difficult sounds"
  else if focus = "fluency" then "smooth flowing sentences with natural rhythm"
  else if focus = "consonants" then "emphasis on consonant clarity"
  else if focus = "vowels" then "vowel sound differentiation"
  else if focus = "tongue_twisters" then "alliterative phrases for agility"
  else "general practice"

/-- The length filter of call_ai_api_for_phrase (lines 610-613). -/
def lengthFilter (plen : String) (phrases : List String) : List String :=
  if plen = "short" then phrases.filter (fun p => wordCount p < 8)
  else if plen = "long" then phrases.filter (fun p => 12 < wordCount p)
  else phrases

/-- topic_phrases (lines 623-639), in dict insertion order. -/
def topic_phrases : List (String × List String) :=
  [("animals",
    ["The playful dolphins dance through the sparkling ocean waves.",
     "Majestic elephants trumpeted loudly across the African savanna.",
     "Colorful butterflies flutter gracefully among the blooming flowers."]),
   ("technology",
    ["Artificial intelligence transforms how we process information daily.",
     "Smartphones connect people instantly across vast global distances.",
     "Virtual reality creates immersive experiences beyond imagination."]),
   ("sports",
    ["Athletes train rigorously to achieve peak physical performance.",
     "The basketball bounced rhythmically against the gymnasium floor.",
     "Swimming strengthens muscles while improving cardiovascular health."])]

/-- call_ai_api_for_phrase (lines 556-653): picks from the focus table,
applies the length filter with fallback to the general table, then the
first matching topic table overrides the selection; builds the
rationale text.  pick1/pick2 stand for the two random.choice draws. -/
def call_ai_api_for_phrase (s : Settings) (pick1 pick2 : Nat) : PhraseData :=
  let focus := s.focus_area
  let phrases0 := lengthFilter s.phrase_length (sample_phrases focus)
  let phrases := if phrases0 = [] then general_phrases else phrases0
  let selected := pickStr phrases pick1
  let topic := s.topic_interest.trim
  let selected :=
    if topic = "" then selected
    else
      match topic_phrases.find? (fun kv => strContains topic.toLower kv.1) with
      | some kv => pickStr kv.2 pick2
      | none => selected
  let explanation :=
    "This phrase focuses on " ++ focusDescription focus ++ " at " ++
      s.difficulty_level ++ " level." ++
      (if topic = "" then "" else " Customized for your interest in " ++ topic ++ ".")
  ⟨selected, explanation⟩

/-- Fallback pairs of _generate_phrase_thread (lines 546-550). -/
def fallback_phrases : List (String × String) :=
  [("The quick brown fox jumps over the lazy dog.",
    "Classic pangram for practicing all letters."),
   ("She sells seashells by the seashore.",
    "Great for practicing \x27sh\x27 and \x27s\x27 sounds."),
   ("Peter Piper picked a peck of pickled peppers.",
    "Excellent alliteration practice.")]

/-- _generate_phrase_thread (lines 535-554): the outcome of the
call_ai_api_for_phrase attempt arrives as an Except; on success the
result, and on any exception a fallback pair, is posted back to the
main loop as an update_phrase_ui callback.  No error post exists on
either path. -/
def generate_phrase_thread (outcome : Except String PhraseData) (pick : Nat) :
    UIPost :=
  match outcome with
  | Except.ok pd => UIPost.updatePhrase pd
  | Except.error _ =>
      let pc := pickPair fallback_phrases pick
      UIPost.updatePhrase ⟨pc.1, pc.2⟩

/-- calculate_avg_score (lines 520-524): 0.0 for an empty score list,
otherwise sum divided by length (exact rational in place of the Python
float). -/
def calculate_avg_score (ud : UserData) : ℚ :=
  if ud.scores = [] then 0 else (ud.scores.sum : ℚ) / (ud.scores.length : ℚ)

/-- Modelled from the spec: the UserProfile mutation performed after a
Session reaches Scored (spec sections 3 and 4.1; the source file breaks
off before this handler).  The new percentage is appended to scores,
total_sessions is incremented and best_score is raised to the new
score when it exceeds the previous best. -/
def recordScore (ud : UserData) (score : Nat) : UserData :=
  { ud with
    scores := ud.scores ++ [score]
    total_sessions := ud.total_sessions + 1
    best_score := max ud.best_score score }

/-- Splits a character stream into maximal space-free words, the
accumulator holding the current word reversed. -/
def wordsAux : List Char → List Char → List String
  | [], acc => if acc = [] then [] else [acc.reverse.asString]
  | c :: cs, acc =>
    if c = ' ' then
      (if acc = [] then wordsAux cs [] else acc.reverse.asString :: wordsAux cs [])
    else wordsAux cs (c :: acc)

/-- Modelled from the spec: the Scorer normalisation (spec section 4.3;
the Scorer is absent from the source file): lowercase, punctuation
stripped, split into words. -/
def normalizeWords (s : String) : List String :=
  wordsAux (s.data.map (fun c => if c.isAlphanum then c.toLower else ' ')) []

/-- Modelled from the spec: length of a longest common subsequence of
the two word sequences, the leftmost-LCS alignment of spec section
4.3. -/
def lcsLen : List String → List String → Nat
  | [], _ => 0
  | _ :: _, [] => 0
  | a :: as, b :: bs =>
      if a = b then 1 + lcsLen as bs
      else max (lcsLen (a :: as) bs) (lcsLen as (b :: bs))
termination_by xs ys => xs.length + ys.length

/-- Modelled from the spec: the Scorer percentage (spec section 4.3):
matched words over target words, times 100, rounded to the nearest
integer and clamped to [0, 100]; an empty target word list yields 0
(the division guard, matching the empty-transcript edge case). -/
def scorePercentage (target transcript : String) : Nat :=
  let tw := normalizeWords target
  let hw := normalizeWords transcript
  let n := tw.length
  if n = 0 then 0
  else min 100 ((200 * lcsLen tw hw + n) / (2 * n))

/-! Helper lemmas shared by several results. -/

/-- Decidable form of: every phrase in the list is non-empty. -/
def allNonempty (l : List String) : Bool := l.all (fun p => !(p == ""))

theorem allNonempty_ne (l : List String) (hl : allNonempty l = true)
    (p : String) (hp : p ∈ l) : p ≠ "" := by
  have h := List.all_eq_true.mp hl p hp
  simpa using h

theorem pickStr_mem (l : List String) (i : Nat) (h : l ≠ []) : pickStr l i ∈ l := by
  unfold pickStr
  have hl : 0 < l.length := List.length_pos.mpr h
  have hm : i % l.length < l.length := Nat.mod_lt _ hl
  rw [List.getD_eq_getElem _ _ hm]
  exact List.getElem_mem hm

theorem pickPair_mem (l : List (String × String)) (i : Nat) (h : l ≠ []) :
    pickPair l i ∈ l := by
  unfold pickPair
  have hl : 0 < l.length := List.length_pos.mpr h
  have hm : i % l.length < l.length := Nat.mod_lt _ hl
  rw [List.getD_eq_getElem _ _ hm]
  exact List.getElem_mem hm

theorem sample_phrases_all (focus : String) :
    allNonempty (sample_phrases focus) = true := by
  unfold sample_phrases
  split_ifs <;> decide

theorem lengthFilter_subset (plen : String) (l : List String) (p : String)
    (hp : p ∈ lengthFilter plen l) : p ∈ l := by
  unfold lengthFilter at hp
  split_ifs at hp
  · exact List.mem_of_mem_filter hp
  · exact List.mem_of_mem_filter hp
  · exact hp

theorem topic_phrases_find_all (q : String × List String → Bool)
    (kv : String × List String) (h : topic_phrases.find? q = some kv) :
    allNonempty kv.2 = true ∧ kv.2 ≠ [] := by
  have hm := List.mem_of_find?_eq_some h
  simp only [topic_phrases, List.mem_cons, List.not_mem_nil, or_false] at hm
  rcases hm with rfl | rfl | rfl <;> exact ⟨by decide, by decide⟩

theorem base_selection_ne (s : Settings) (pick1 : Nat) :
    pickStr (if lengthFilter s.phrase_length (sample_phrases s.focus_area) = []
             then general_phrases
             else lengthFilter s.phrase_length (sample_phrases s.focus_area)) pick1 ≠ "" := by
  by_cases h0 : lengthFilter s.phrase_length (sample_phrases s.focus_area) = []
  · rw [if_pos h0]
    exact allNonempty_ne general_phrases (by decide) _ (pickStr_mem _ _ (by decide))
  · rw [if_neg h0]
    exact allNonempty_ne (sample_phrases s.focus_area) (sample_phrases_all s.focus_area) _
      (lengthFilter_subset _ _ _ (pickStr_mem _ pick1 h0))

theorem lcsLen_self (l : List String) : lcsLen l l = l.length := by
  induction l with
  | nil => simp [lcsLen]
  | cons a as ih => simp [lcsLen, ih, Nat.add_comm]

/-! Concrete states used by individual results. -/

/-- A state with a capture in progress: speech available, model loaded,
a phrase on screen, is_recording set and two chunks accumulated. -/
def recordingState : AppState :=
  { speech_available := true
    whisper_model := some "base"
    current_phrase := "She sells seashells by the seashore."
    current_context := "sh practice"
    is_recording := true
    audio_frames := [7, 8]
    settings := default_settings
    user_data := default_user_data }

/-- A state in which the whisper model is still loading (None) while a
phrase is already displayed. -/
def modelLoadingState : AppState :=
  { speech_available := true
    whisper_model := none
    current_phrase := "The lips, the teeth, the tip of the tongue."
    current_context := "articulation"
    is_recording := false
    audio_frames := []
    settings := default_settings
    user_data := default_user_data }

/-- An idle state with speech available, used for the settings-change
results. -/
def idleState : AppState :=
  { speech_available := true
    whisper_model := some "base"
    current_phrase := ""
    current_context := ""
    is_recording := false
    audio_frames := []
    settings := default_settings
    user_data := default_user_data }

/-- A live session state holding the phrase of the newest session. -/
def liveState : AppState :=
  { speech_available := true
    whisper_model := some "base"
    current_phrase := "Children laughed as they played in the garden."
    current_context := "live session"
    is_recording := false
    audio_frames := []
    settings := default_settings
    user_data := default_user_data }

/-- The profile reached after recording the scores 60, 80, 100 from the
default profile. -/
def sampleProfile : UserData :=
  { sessions := [], scores := [60, 80, 100], total_sessions := 3, best_score := 100 }

/-! The results. -/

/-- Claim C1, counterexample: in a state with a capture in progress, the
record command (toggle_recording, the only entry point of the
start/stop control) does not leave the recording state unchanged - it
flips is_recording off, so the re-invocation is a stop, not a no-op
rejection. -/
theorem toggle_while_recording_not_noop :
    recordingState.is_recording = true ∧
    (toggle_recording recordingState).1.is_recording = false := by decide

/-- Claim C1, amended: while a recording is in progress (guards
satisfied), the record command does not restart capture (no thread is
spawned), does not clear the accumulated audio frames, but routes to
stop_recording, setting is_recording to false rather than leaving it
unchanged. -/
theorem toggle_while_recording_stops_without_restart (st : AppState)
    (h1 : st.speech_available = true) (h2 : st.whisper_model ≠ none)
    (h3 : st.current_phrase ≠ "") (h4 : st.is_recording = true) :
    (toggle_recording st).1.audio_frames = st.audio_frames ∧
    ((toggle_recording st).2.all (fun e => !e.isSpawn)) = true ∧
    (toggle_recording st).1.is_recording = false := by
  simp [toggle_recording, stop_recording, start_recording, h1, h2, h3, h4]

/-- Claim C1, witness: the amended statement evaluated at the concrete
recording state. -/
theorem toggle_while_recording_stops_without_restart_witness :
    (toggle_recording recordingState).1.audio_frames = recordingState.audio_frames ∧
    ((toggle_recording recordingState).2.all (fun e => !e.isSpawn)) = true ∧
    (toggle_recording recordingState).1.is_recording = false :=
  toggle_while_recording_stops_without_restart recordingState
    (by decide) (by decide) (by decide) (by decide)

/-- Claim C2: for every target phrase with at least one word and every
transcript equal to it up to letter case and punctuation (equal
normalised word sequences), the Scorer percentage is exactly 100. -/
theorem scorer_identical_transcript_scores_100 (target transcript : String)
    (heq : normalizeWords transcript = normalizeWords target)
    (hne : normalizeWords target ≠ []) :
    scorePercentage target transcript = 100 := by
  have hn : (normalizeWords target).length ≠ 0 := by
    simpa [List.length_eq_zero] using hne
  simp only [scorePercentage, heq, lcsLen_self, if_neg hn]
  have h100 : (200 * (normalizeWords target).length + (normalizeWords target).length) /
      (2 * (normalizeWords target).length) = 100 := by
    apply Nat.div_eq_of_lt_le <;> omega
  rw [h100]
  simp

/-- Claim C2, witness: a transcript differing from the target only in
case and punctuation scores 100. -/
theorem scorer_identical_transcript_scores_100_witness :
    scorePercentage "Hello, world." "hello WORLD" = 100 :=
  scorer_identical_transcript_scores_100 "Hello, world." "hello WORLD"
    (by decide) (by decide)

/-- Claim C3: whenever the whisper model is not loaded, the record
command is rejected with a capability warning (feature unavailable or
model still loading) and the state is returned unchanged: nothing is
recorded, no frames are touched, no thread starts. -/
theorem toggle_rejected_when_model_none (st : AppState)
    (h : st.whisper_model = none) :
    (toggle_recording st).1 = st ∧
    ((toggle_recording st).2 = [Effect.showWarning "Feature Unavailable"
        "Speech recognition not available. Please install openai-whisper and pyaudio."] ∨
     (toggle_recording st).2 = [Effect.showWarning "Model Loading"
        "Whisper model is still loading. Please wait a moment."]) := by
  unfold toggle_recording
  by_cases hs : st.speech_available = false
  · simp [hs]
  · simp [hs, h]

/-- Claim C3, witness: the rejection evaluated in the concrete state
whose model is still loading. -/
theorem toggle_rejected_when_model_none_witness :
    (toggle_recording modelLoadingState).1 = modelLoadingState ∧
    ((toggle_recording modelLoadingState).2 = [Effect.showWarning "Feature Unavailable"
        "Speech recognition not available. Please install openai-whisper and pyaudio."] ∨
     (toggle_recording modelLoadingState).2 = [Effect.showWarning "Model Loading"
        "Whisper model is still loading. Please wait a moment."]) :=
  toggle_rejected_when_model_none modelLoadingState (by decide)

/-- Claim C4: when the upstream phrase-generation call fails with any
exception, the generation thread still posts an update_phrase_ui
callback carrying a pair from the fixed built-in fallback list, and for
every outcome of the call the posted event is a phrase update - never
an error surfaced to the user. -/
theorem generate_failure_recovered_by_fallback (e : String) (pick : Nat)
    (o : Except String PhraseData) :
    generate_phrase_thread (Except.error e) pick =
      UIPost.updatePhrase
        ⟨(pickPair fallback_phrases pick).1, (pickPair fallback_phrases pick).2⟩ ∧
    pickPair fallback_phrases pick ∈ fallback_phrases ∧
    ∃ pd : PhraseData, generate_phrase_thread o pick = UIPost.updatePhrase pd := by
  refine ⟨rfl, pickPair_mem _ _ (by decide), ?_⟩
  cases o with
  | ok pd => exact ⟨pd, rfl⟩
  | error e2 =>
      exact ⟨⟨(pickPair fallback_phrases pick).1, (pickPair fallback_phrases pick).2⟩, rfl⟩

/-- Claim C5, counterexample: a phrase-generation completion carries no
session identifier and is not discarded - applied to the live state it
overwrites the live phrase, so a completion dispatched for a superseded
session changes the live session state. -/
theorem stale_completion_mutates_live_state :
    (update_phrase_ui liveState
      ⟨"The quick brown fox jumps over the lazy dog.", "stale result"⟩).1.current_phrase ≠
      liveState.current_phrase := by decide

/-- Claim C5, amended: background completions are not tagged with any
session identifier; update_phrase_ui applies every delivered completion
unconditionally to the live state, and the thread dispatch itself
carries only a thread kind, no session tag. -/
theorem update_phrase_ui_applies_unconditionally (st : AppState) (pd : PhraseData) :
    (update_phrase_ui st pd).1.current_phrase = pd.phrase ∧
    (update_phrase_ui st pd).1.current_context = pd.explanation ∧
    (generate_ai_phrase st).2 =
      [Effect.configGenerateBtn "Generating...", Effect.spawnThread ThreadKind.generate] :=
  ⟨rfl, rfl, rfl⟩

/-- Claim C6: for every settings configuration and every pair of random
draws, the phrase provider returns a non-empty phrase; the general
fallback table backing the length filter is itself non-empty. -/
theorem phrase_provider_returns_nonempty (s : Settings) (pick1 pick2 : Nat) :
    (call_ai_api_for_phrase s pick1 pick2).phrase ≠ "" ∧ general_phrases ≠ [] := by
  refine ⟨?_, by decide⟩
  by_cases ht : s.topic_interest.trim = ""
  · simpa [call_ai_api_for_phrase, ht] using base_selection_ne s pick1
  · rcases hfind : topic_phrases.find?
        (fun kv => strContains s.topic_interest.trim.toLower kv.1) with _ | kv
    · simpa [call_ai_api_for_phrase, ht, hfind] using base_selection_ne s pick1
    · have h2 := topic_phrases_find_all _ kv hfind
      have h3 := allNonempty_ne kv.2 h2.1 _ (pickStr_mem kv.2 pick2 h2.2)
      simpa [call_ai_api_for_phrase, ht, hfind] using h3

/-- Claim C7, counterexample: changing the whisper model size reloads
the model inline on the calling context - among the effects of
update_setting there is the inline load and no background-thread
dispatch at all, refuting an asynchronous reload. -/
theorem model_reload_is_inline_not_async :
    ((update_setting (fun s => some s) idleState "whisper_model_size" "small").2.all
        (fun e => !e.isSpawn)) = true ∧
    Effect.loadModelInline "small" ∈
      (update_setting (fun s => some s) idleState "whisper_model_size" "small").2 := by
  decide

/-- Claim C7, amended: a model-size change invalidates the handle and
reloads the model synchronously on the calling context (the load
effect is inline, between the status update and the file writes), and
it leaves is_recording and the audio frames untouched, so a session
already recording is not interrupted. -/
theorem model_size_change_reloads_inline (loader : String → Option String)
    (st : AppState) (v : String) (h : st.speech_available = true) :
    (update_setting loader st "whisper_model_size" v).1.whisper_model = loader v ∧
    (update_setting loader st "whisper_model_size" v).2 =
      [Effect.configModelStatus "Loading new model...", Effect.loadModelInline v,
       Effect.writeDataFile st.user_data,
       Effect.writeSettingsFile (setSetting st.settings "whisper_model_size" v)] ∧
    (update_setting loader st "whisper_model_size" v).1.is_recording = st.is_recording ∧
    (update_setting loader st "whisper_model_size" v).1.audio_frames = st.audio_frames := by
  unfold update_setting load_whisper_model save_data
  simp [h, setSetting]

/-- Claim C7, witness: the amended statement evaluated at the concrete
idle state with a loader that always succeeds. -/
theorem model_size_change_reloads_inline_witness :
    (update_setting (fun s => some s) idleState "whisper_model_size" "tiny").1.whisper_model =
      (fun s => some s) "tiny" ∧
    (update_setting (fun s => some s) idleState "whisper_model_size" "tiny").2 =
      [Effect.configModelStatus "Loading new model...", Effect.loadModelInline "tiny",
       Effect.writeDataFile idleState.user_data,
       Effect.writeSettingsFile (setSetting idleState.settings "whisper_model_size" "tiny")] ∧
    (update_setting (fun s => some s) idleState "whisper_model_size" "tiny").1.is_recording =
      idleState.is_recording ∧
    (update_setting (fun s => some s) idleState "whisper_model_size" "tiny").1.audio_frames =
      idleState.audio_frames :=
  model_size_change_reloads_inline (fun s => some s) idleState "tiny" (by decide)

/-- Claim C8: the average is the arithmetic mean of the stored score
list whenever it is non-empty, and the profile built by recording the
scores 60, 80, 100 reports best score 100 and average exactly 80. -/
theorem profile_stats_best_and_average (ud : UserData) (h : ud.scores ≠ []) :
    calculate_avg_score ud = (ud.scores.sum : ℚ) / (ud.scores.length : ℚ) ∧
    ([60, 80, 100].foldl recordScore default_user_data).best_score = 100 ∧
    calculate_avg_score ([60, 80, 100].foldl recordScore default_user_data) = 80 := by
  refine ⟨?_, by decide, ?_⟩
  · unfold calculate_avg_score
    rw [if_neg h]
  · simp [calculate_avg_score, recordScore, default_user_data]
    norm_num

/-- Claim C8, witness: the statement evaluated at the concrete profile
with scores 60, 80, 100. -/
theorem profile_stats_best_and_average_witness :
    calculate_avg_score sampleProfile =
      (sampleProfile.scores.sum : ℚ) / (sampleProfile.scores.length : ℚ) ∧
    ([60, 80, 100].foldl recordScore default_user_data).best_score = 100 ∧
    calculate_avg_score ([60, 80, 100].foldl recordScore default_user_data) = 80 :=
  profile_stats_best_and_average sampleProfile (by decide)

/-- Claim C9: when a persisted file is absent (read yields none),
loading installs the documented defaults: the empty profile and the
fixed settings with focus general, beginner difficulty, empty topic,
medium phrase length and the base whisper model. -/
theorem load_data_defaults_when_files_absent (df : Option UserData)
    (sf : Option Settings) :
    (load_data none sf).1 =
      { sessions := [], scores := [], total_sessions := 0, best_score := 0 } ∧
    (load_data df none).2 =
      { focus_area := "general", difficulty_level := "beginner",
        topic_interest := "", phrase_length := "medium",
        whisper_model_size := "base", extra := [] } :=
  ⟨rfl, rfl⟩

/-- Claim C10: every settings change, whatever the key, ends in
save_data, whose effects write the data file with the unchanged
in-memory user profile as well as the settings file with the updated
settings. -/
theorem update_setting_writes_both_files (loader : String → Option String)
    (st : AppState) (key value : String) :
    Effect.writeDataFile st.user_data ∈ (update_setting loader st key value).2 ∧
    Effect.writeSettingsFile (setSetting st.settings key value) ∈
      (update_setting loader st key value).2 ∧
    (update_setting loader st key value).1.user_data = st.user_data := by
  unfold update_setting save_data load_whisper_model
  by_cases h : key = "whisper_model_size" ∧ st.speech_available = true
  · simp [h]
  · simp [h]

end VoiceBuddy
